import Mathlib

/-!
# Verification of the watsonx-demo ReAct tool-calling loop

Shallow embedding of the recurring agent pattern of the repository's example
scripts, and of the script-level control flow of `pipelines/chat_invoke.py`
and `examples/wxai/01_setup_environment.py`.

Conventions of the embedding:
* Python float arguments of the calculator tools are modelled as rationals
  (`ℚ`); none of the verified properties depend on float rounding, only on
  the `b = 0` test that triggers `ZeroDivisionError`.
* A tool callable is a function `α → Except String String`: `.ok r` stands
  for a normal return whose `str(result)` is `r`, `.error e` stands for a
  raised exception whose `str(e)` is `e`.
* Each of the three `call_tools` closures (from `09_simple_agents.py`,
  `11_rag_agent.py` and `13_ai_service_deploy.py`) is embedded separately,
  in its own namespace, since their bodies differ.
-/

namespace WatsonxDemo

/-- A tool invocation request produced by the model: the `tool_call` dicts of
the langchain messages, with fields `id`, `name`, `args`. The argument payload
type `α` is abstract, mirroring the duck-typed `dict` of the source. -/
structure ToolCall (α : Type) where
  id : String
  name : String
  args : α
deriving Repr, DecidableEq

/-- A conversation message: `HumanMessage`, `AIMessage` (with its
`tool_calls` list) or `ToolMessage` (with its `tool_call_id`). -/
inductive Msg (α : Type) where
  | human (content : String)
  | ai (content : String) (tool_calls : List (ToolCall α))
  | tool (content : String) (tool_call_id : String)
deriving Repr, DecidableEq

/-- A registered tool: a name plus a callable. -/
structure Tool (α : Type) where
  name : String
  invoke : α → Except String String

variable {α : Type}

/-- The lookup loop shared by all three dispatchers:
`for t in tools: if t.name == tool_name: tool_func = t; break`. -/
def find_tool (tools : List (Tool α)) (tool_name : String) : Option (Tool α) :=
  tools.find? (fun t => t.name == tool_name)

namespace SimpleAgents

/-- The `for tool_call in last_message.tool_calls` loop of `call_tools` in
`09_simple_agents.py` (lines 128–156), accumulating `tool_messages`.
A matched tool is invoked; success appends `ToolMessage(str(result), id)`,
an exception appends `ToolMessage("Error: " + str(e), id)`. An unmatched
name falls through: nothing is appended. No truncation is performed. -/
def call_tools_go (tools : List (Tool α)) (tool_messages : List (Msg α)) :
    List (ToolCall α) → List (Msg α)
  | [] => tool_messages
  | tool_call :: rest =>
    match find_tool tools tool_call.name with
    | some tool_func =>
      match tool_func.invoke tool_call.args with
      | .ok result =>
          call_tools_go tools
            (tool_messages ++ [Msg.tool result tool_call.id]) rest
      | .error e =>
          call_tools_go tools
            (tool_messages ++ [Msg.tool ("Error: " ++ e) tool_call.id]) rest
    | none => call_tools_go tools tool_messages rest

/-- `call_tools` of `09_simple_agents.py`, applied to the extracted
`tool_calls` list of the last message. -/
def call_tools (tools : List (Tool α)) (tool_calls : List (ToolCall α)) :
    List (Msg α) :=
  call_tools_go tools [] tool_calls

/-- The body of one iteration of the `09_simple_agents.py` dispatch loop, as
a function of a single request: `none` when the tool name is unmatched
(the source appends nothing in that case), otherwise exactly one invocation
of the matched callable, wrapped as a `ToolMessage`. -/
def dispatch (tools : List (Tool α)) (tool_call : ToolCall α) :
    Option (Msg α) :=
  (find_tool tools tool_call.name).map fun tool_func =>
    match tool_func.invoke tool_call.args with
    | .ok result => Msg.tool result tool_call.id
    | .error e => Msg.tool ("Error: " ++ e) tool_call.id

end SimpleAgents

namespace RagAgent

/-- The dispatch loop of `call_tools` in `11_rag_agent.py` (lines 201–226):
identical to `09_simple_agents.py` except that a successful result is cut to
its first 2000 characters when longer
(`str(result)[:2000] if len(str(result)) > 2000 else str(result)`),
with no truncation marker. -/
def call_tools_go (tools : List (Tool α)) (tool_messages : List (Msg α)) :
    List (ToolCall α) → List (Msg α)
  | [] => tool_messages
  | tool_call :: rest =>
    match find_tool tools tool_call.name with
    | some tool_func =>
      match tool_func.invoke tool_call.args with
      | .ok result =>
          call_tools_go tools
            (tool_messages ++
              [Msg.tool (if 2000 < result.length then result.take 2000
                         else result) tool_call.id]) rest
      | .error e =>
          call_tools_go tools
            (tool_messages ++ [Msg.tool ("Error: " ++ e) tool_call.id]) rest
    | none => call_tools_go tools tool_messages rest

/-- `call_tools` of `11_rag_agent.py`. -/
def call_tools (tools : List (Tool α)) (tool_calls : List (ToolCall α)) :
    List (Msg α) :=
  call_tools_go tools [] tool_calls

end RagAgent

namespace DeployAgent

/-- The dispatch loop of `call_tools` in `13_ai_service_deploy.py`
(lines 245–296): a successful result longer than 2000 characters becomes
`result_str[:2000] + "... [truncated]"`; an exception appends
`"Error executing tool <name>: <str(e)>"`; an unmatched name appends
`"Tool <name> not found"`. -/
def call_tools_go (tools : List (Tool α)) (tool_messages : List (Msg α)) :
    List (ToolCall α) → List (Msg α)
  | [] => tool_messages
  | tool_call :: rest =>
    match find_tool tools tool_call.name with
    | some tool_func =>
      match tool_func.invoke tool_call.args with
      | .ok result =>
          call_tools_go tools
            (tool_messages ++
              [Msg.tool (if 2000 < result.length then
                           result.take 2000 ++ "... [truncated]"
                         else result) tool_call.id]) rest
      | .error e =>
          call_tools_go tools
            (tool_messages ++
              [Msg.tool ("Error executing tool " ++ tool_call.name ++
                  ": " ++ e) tool_call.id]) rest
    | none =>
        call_tools_go tools
          (tool_messages ++
            [Msg.tool ("Tool " ++ tool_call.name ++ " not found")
              tool_call.id]) rest

/-- `call_tools` of `13_ai_service_deploy.py`. -/
def call_tools (tools : List (Tool α)) (tool_calls : List (ToolCall α)) :
    List (Msg α) :=
  call_tools_go tools [] tool_calls

end DeployAgent

/-! ## The calculator tools of `09_simple_agents.py`

Python's `a / b` on floats raises `ZeroDivisionError("float division by
zero")` exactly when `b == 0`; the other three operations are total. -/

/-- The `add` tool (`09_simple_agents.py` lines 63–66). -/
def add : Tool (ℚ × ℚ) :=
  { name := "add", invoke := fun p => .ok (toString (p.1 + p.2)) }

/-- The `subtract` tool (lines 68–71). -/
def subtract : Tool (ℚ × ℚ) :=
  { name := "subtract", invoke := fun p => .ok (toString (p.1 - p.2)) }

/-- The `multiply` tool (lines 73–76). -/
def multiply : Tool (ℚ × ℚ) :=
  { name := "multiply", invoke := fun p => .ok (toString (p.1 * p.2)) }

/-- The `divide` tool (lines 78–81): raises `ZeroDivisionError` when the
divisor is zero. -/
def divide : Tool (ℚ × ℚ) :=
  { name := "divide",
    invoke := fun p =>
      if p.2 = 0 then .error "float division by zero"
      else .ok (toString (p.1 / p.2)) }

/-- `tools = [add, subtract, multiply, divide]` (line 83). -/
def tools09 : List (Tool (ℚ × ℚ)) := [add, subtract, multiply, divide]

/-! ## The LangGraph agent loop of `09_simple_agents.py` -/

/-- Outcome of one `should_continue` decision: the string `"tools"` or
LangGraph's `END`. -/
inductive NodeTag where
  | tools
  | done
deriving Repr, DecidableEq

/-- `should_continue` (lines 92–102): return `"tools"` iff the last message
is an `AIMessage` whose `tool_calls` list is truthy (non-empty), else `END`. -/
def should_continue (messages : List (Msg α)) : NodeTag :=
  match messages.getLast? with
  | some (.ai _ tool_calls) => if tool_calls.isEmpty then .done else .tools
  | _ => .done

/-- What one external model call returns: an assistant message, i.e. content
plus a `tool_calls` list (the narrow contract of spec §4.3). -/
structure ModelResponse (α : Type) where
  content : String
  tool_calls : List (ToolCall α)

/-- A Model Caller: conversation in, assistant message out. The remote model
is opaque, so the loop is verified for an arbitrary (fake) caller. -/
def ModelCaller (α : Type) : Type :=
  List (Msg α) → ModelResponse α

/-- `call_model` (lines 110–115): invoke the model on the messages and
return the one-element message delta appended to the state. -/
def call_model (model : ModelCaller α) (messages : List (Msg α)) :
    List (Msg α) :=
  [Msg.ai (model messages).content (model messages).tool_calls]

/-- The pending requests seen by the `tools` node: the `tool_calls` of the
last message, `[]` when the last message carries none (the
`if not hasattr(...) or not last_message.tool_calls` guard, lines 125–126). -/
def last_tool_calls (messages : List (Msg α)) : List (ToolCall α) :=
  match messages.getLast? with
  | some (.ai _ tool_calls) => tool_calls
  | _ => []

/-- Modelled from the spec: the diagnostic final message produced when the
iteration ceiling is hit. The graph executor enforcing
`config = {"recursion_limit": 50}` (lines 212, 223) is the external
LangGraph library, not code of this repository; per the spec, "a run fails
closed (transitions to `done` with a diagnostic message) once an iteration
counter exceeds the configured ceiling". -/
def recursion_limit_diagnostic (α : Type) : Msg α :=
  Msg.ai "Recursion limit reached: run aborted" []

/-- Modelled from the spec: the Loop Controller of spec §4.2 driving the
node functions of `09_simple_agents.py` (the graph executor itself is
external). One unit of fuel is one agent superstep followed, when
`should_continue` picks `"tools"`, by its tools superstep
(`workflow.add_edge("tools", "agent")`, line 179); exhausted fuel appends
`recursion_limit_diagnostic` and stops. -/
def run_agent (model : ModelCaller α) (tools : List (Tool α)) :
    Nat → List (Msg α) → List (Msg α)
  | 0, messages => messages ++ [recursion_limit_diagnostic α]
  | n + 1, messages =>
    match should_continue (messages ++ call_model model messages) with
    | .tools =>
        run_agent model tools n
          ((messages ++ call_model model messages) ++
            SimpleAgents.call_tools tools
              (last_tool_calls (messages ++ call_model model messages)))
    | .done => messages ++ call_model model messages

/-- The conversation states reachable by the loop: an initial user message,
after an agent superstep, or after a tools superstep taken when
`should_continue` chose `"tools"`. -/
inductive Reachable (model : ModelCaller α) (tools : List (Tool α)) :
    List (Msg α) → Prop where
  | init (query : String) : Reachable model tools [Msg.human query]
  | agent_step {messages : List (Msg α)} :
      Reachable model tools messages →
      Reachable model tools (messages ++ call_model model messages)
  | tools_step {messages : List (Msg α)} :
      Reachable model tools messages →
      should_continue messages = .tools →
      Reachable model tools
        (messages ++ SimpleAgents.call_tools tools (last_tool_calls messages))

/-- Every tool-result message's `tool_call_id` is the id of a request
carried by an assistant message strictly earlier in the conversation. -/
def tool_ids_justified (messages : List (Msg α)) : Prop :=
  ∀ (i : Nat) (hi : i < messages.length) (c s : String),
    messages[i] = Msg.tool c s →
    ∃ (j : Nat) (hj : j < messages.length), j < i ∧
      ∃ c2 tcs, messages[j] = Msg.ai c2 tcs ∧ ∃ tc ∈ tcs, tc.id = s

/-! ## Script-level control flow -/

/-- Observable outcome of a script run: whether a diagnostic line was
printed, and the process exit status. -/
structure ScriptOutcome where
  printed_diagnostic : Bool
  exit_code : Nat
deriving Repr, DecidableEq

/-- `pipelines/chat_invoke.py`: the whole body after reading the environment
runs inside one `try`/`except`; the `except` prints `"✗ Error: ..."` and
calls `exit(1)` (lines 111–113), otherwise the script ends normally. The
argument is the combined result of the SDK calls in the `try` body (they
raise, e.g., when a required environment variable was absent). -/
def chat_invoke_run (body : Except String Unit) : ScriptOutcome :=
  match body with
  | .ok _ => { printed_diagnostic := false, exit_code := 0 }
  | .error _ => { printed_diagnostic := true, exit_code := 1 }

/-- `examples/wxai/01_setup_environment.py` cell 3 (lines 77–101): SDK
initialization runs inside `try`/`except`; the `except` prints
`"⚠ SDK initialization failed: ..."`, sets `client = None`, and the script
continues to its end — no `exit()` call exists anywhere in the script, so
the process status is 0 in both cases. -/
def setup_environment_run (sdk_init : Except String Unit) : ScriptOutcome :=
  match sdk_init with
  | .ok _ => { printed_diagnostic := false, exit_code := 0 }
  | .error _ => { printed_diagnostic := true, exit_code := 0 }

/-- The environment values read by the setup cells of
`09_simple_agents.py` (lines 26–29). -/
structure AgentEnvConfig where
  api_key : Option String
  project_id : Option String
  url : String
  model_name : Option String
deriving Repr, DecidableEq

/-- The setup cells of `09_simple_agents.py` (lines 24–43): each variable is
read with `os.getenv`, which returns `None` for an absent variable; only
`WATSONX_URL` has a default. No validation or exit happens here. -/
def read_agent_env (env : String → Option String) : AgentEnvConfig :=
  { api_key := env "WATSONX_API_KEY"
    project_id := env "WATSONX_PROJECT_ID"
    url := (env "WATSONX_URL").getD "https://us-south.ml.cloud.ibm.com"
    model_name := env "MODEL_NAME" }

namespace ChatInvoke

/-- The filename sanitizer of `chat_invoke.py` line 72:
`"".join(c for c in PROMPT[:30] if c.isalnum() or c in (' ', '-', '_'))`
then `.strip().replace(' ', '_')`. Python's unicode `isalnum` is modelled by
`Char.isAlphanum`. -/
def prompt_safe (prompt : String) : String :=
  ((((prompt.take 30).toList.filter
      (fun c => c.isAlphanum || c = ' ' || c = '-' || c = '_')).asString).trim).replace
    " " "_"

/-- The output path of line 73: `f"response_{timestamp}_{prompt_safe}.txt"`
(under the working directory `data/raw`). -/
def output_file_name (timestamp prompt : String) : String :=
  "response_" ++ timestamp ++ "_" ++ prompt_safe prompt ++ ".txt"

/-- The two sequential `f.write` calls of lines 75–77, in order. Exactly one
file is opened per invocation. -/
def file_writes (prompt content : String) : List String :=
  ["Prompt: " ++ prompt ++ "\n\n", "Response:\n" ++ content ++ "\n"]

/-- The full text of the output file: the concatenation of the writes. -/
def output_file_content (prompt content : String) : String :=
  (file_writes prompt content).foldl (· ++ ·) ""

end ChatInvoke

/-! ## Concrete fixtures used by witnesses and counterexamples -/

/-- A fake Model Caller that always requests a tool call. -/
def always_tool_model : ModelCaller String :=
  fun _ => { content := "", tool_calls := [⟨"id1", "echo", "x"⟩] }

/-- A fake Model Caller that immediately returns a final answer. -/
def final_answer_model : ModelCaller String :=
  fun _ => { content := "The answer is 5.", tool_calls := [] }

/-- A fake Model Caller over the calculator tools requesting `add(2, 3)`. -/
def add_request_model : ModelCaller (ℚ × ℚ) :=
  fun _ => { content := "", tool_calls := [⟨"idA", "add", (2, 3)⟩] }

/-- A 5000-character stringified tool result. -/
def big_result : String := String.mk (List.replicate 5000 'a')

/-- A tool whose stringified result is 5000 characters long. -/
def big_tool : Tool Unit :=
  { name := "search", invoke := fun _ => .ok big_result }

/-! ## Helper lemmas -/

theorem big_result_length : big_result.length = 5000 := by
  rw [← String.length_data]
  show (List.replicate 5000 'a').length = 5000
  rw [List.length_replicate]

namespace SimpleAgents

theorem call_tools_go_eq (tools : List (Tool α)) (acc : List (Msg α))
    (tcs : List (ToolCall α)) :
    call_tools_go tools acc tcs = acc ++ tcs.filterMap (dispatch tools) := by
  induction tcs generalizing acc with
  | nil => simp [call_tools_go]
  | cons tc rest ih =>
    rw [call_tools_go]
    rcases h : find_tool tools tc.name with _ | t
    · simp [ih, List.filterMap_cons, dispatch, h]
    · rcases hi : t.invoke tc.args with e | r <;>
        simp [ih, List.filterMap_cons, dispatch, h, hi]

theorem mem_call_tools {tools : List (Tool α)} {tcs : List (ToolCall α)}
    {m : Msg α} (hm : m ∈ call_tools tools tcs) :
    ∃ tc ∈ tcs, ∃ c, m = Msg.tool c tc.id := by
  rw [call_tools, call_tools_go_eq, List.nil_append] at hm
  obtain ⟨tc, htc, hd⟩ := List.mem_filterMap.mp hm
  refine ⟨tc, htc, ?_⟩
  unfold dispatch at hd
  rcases h : find_tool tools tc.name with _ | t <;> rw [h] at hd
  · simp at hd
  · simp only [Option.map_some'] at hd
    rcases hi : t.invoke tc.args with e | r <;> rw [hi] at hd <;>
      simp only [Option.some.injEq] at hd <;> exact ⟨_, hd.symm⟩

end SimpleAgents

theorem should_continue_concat (messages : List (Msg α)) (c : String)
    (tcs : List (ToolCall α)) :
    should_continue (messages ++ [Msg.ai c tcs]) =
      if tcs.isEmpty then NodeTag.done else NodeTag.tools := by
  rw [should_continue, List.getLast?_concat]

theorem last_tool_calls_concat (messages : List (Msg α)) (c : String)
    (tcs : List (ToolCall α)) :
    last_tool_calls (messages ++ [Msg.ai c tcs]) = tcs := by
  rw [last_tool_calls, List.getLast?_concat]

theorem should_continue_eq_tools {messages : List (Msg α)}
    (h : should_continue messages = .tools) :
    ∃ ms c tcs, messages = ms ++ [Msg.ai c tcs] ∧ tcs ≠ [] ∧
      last_tool_calls messages = tcs := by
  rcases List.eq_nil_or_concat' messages with rfl | ⟨ms, m, rfl⟩
  · rw [should_continue] at h
    simp at h
  · cases m with
    | human c =>
      rw [should_continue, List.getLast?_concat] at h
      simp at h
    | ai c tcs =>
      refine ⟨ms, c, tcs, rfl, ?_, last_tool_calls_concat ms c tcs⟩
      intro hnil
      rw [hnil, should_continue_concat] at h
      simp at h
    | tool c s =>
      rw [should_continue, List.getLast?_concat] at h
      simp at h

theorem justified_append_of (messages new : List (Msg α))
    (h : tool_ids_justified messages)
    (hnew : ∀ m ∈ new, ∀ c s, m = Msg.tool c s →
      ∃ (j : Nat) (hj : j < messages.length),
        ∃ c2 tcs, messages[j] = Msg.ai c2 tcs ∧ ∃ tc ∈ tcs, tc.id = s) :
    tool_ids_justified (messages ++ new) := by
  intro i hi c s hget
  have hlen : (messages ++ new).length = messages.length + new.length := by
    simp
  by_cases hcase : i < messages.length
  · rw [List.getElem_append_left hcase] at hget
    obtain ⟨j, hj, hji, c2, tcs, hgetj, htc⟩ := h i hcase c s hget
    refine ⟨j, by omega, hji, c2, tcs, ?_, htc⟩
    exact (List.getElem_append_left hj).trans hgetj
  · push_neg at hcase
    have hbound : i - messages.length < new.length := by omega
    rw [List.getElem_append_right hcase] at hget
    obtain ⟨j, hj, c2, tcs, hgetj, htc⟩ :=
      hnew _ (List.getElem_mem hbound) c s hget
    refine ⟨j, by omega, by omega, c2, tcs, ?_, htc⟩
    exact (List.getElem_append_left hj).trans hgetj

/-! ## Claim theorems: the Tool Dispatcher -/

/-- C6: for every assistant message carrying a list of tool-call requests,
the `09_simple_agents.py` dispatcher processes the requests in the order
returned by the model: its output is exactly the order-preserving
`filterMap` of the single-request `dispatch`, which invokes the matched
callable exactly once per request, and the resulting tool messages appear
in that same order. -/
theorem call_tools_dispatches_in_order (tools : List (Tool α))
    (tcs : List (ToolCall α)) :
    SimpleAgents.call_tools tools tcs =
      tcs.filterMap (SimpleAgents.dispatch tools) := by
  rw [SimpleAgents.call_tools, SimpleAgents.call_tools_go_eq,
    List.nil_append]

/-- C2 counterexample: in `09_simple_agents.py`, a request for the
unregistered tool name `"modulo"` produces no tool message at all — the
dispatcher appends nothing, not a "tool not found" message. -/
theorem unknown_tool_silently_skipped :
    SimpleAgents.call_tools tools09
      [⟨"call1", "modulo", ((1 : ℚ), (2 : ℚ))⟩] = [] := by
  rfl

/-- C2 (amended): for a request whose name matches no registered tool, the
`13_ai_service_deploy.py` dispatcher appends a `"Tool <name> not found"`
tool message, while the `09_simple_agents.py` and `11_rag_agent.py`
dispatchers append nothing at all; in all three the run continues without
raising. -/
theorem unknown_tool_behavior (tools : List (Tool α)) (tc : ToolCall α)
    (h : find_tool tools tc.name = none) :
    DeployAgent.call_tools tools [tc] =
        [Msg.tool ("Tool " ++ tc.name ++ " not found") tc.id] ∧
      SimpleAgents.call_tools tools [tc] = [] ∧
      RagAgent.call_tools tools [tc] = [] := by
  refine ⟨?_, ?_, ?_⟩ <;>
    simp [DeployAgent.call_tools, DeployAgent.call_tools_go,
      SimpleAgents.call_tools, SimpleAgents.call_tools_go,
      RagAgent.call_tools, RagAgent.call_tools_go, h]

/-- C2 witness: the amended statement at the concrete unmatched request. -/
theorem unknown_tool_behavior_witness :
    DeployAgent.call_tools tools09
        [⟨"call1", "modulo", ((1 : ℚ), (2 : ℚ))⟩] =
        [Msg.tool ("Tool " ++ "modulo" ++ " not found") "call1"] ∧
      SimpleAgents.call_tools tools09
        [⟨"call1", "modulo", ((1 : ℚ), (2 : ℚ))⟩] = [] ∧
      RagAgent.call_tools tools09
        [⟨"call1", "modulo", ((1 : ℚ), (2 : ℚ))⟩] = [] :=
  unknown_tool_behavior tools09 ⟨"call1", "modulo", (1, 2)⟩ rfl

/-- C3 counterexample: in `13_ai_service_deploy.py`, when `divide` raises,
the appended content is `"Error executing tool divide: float division by
zero"`, which is not of the `"Error: <message>"` form the claim states. -/
theorem deploy_error_content_not_colon_form :
    DeployAgent.call_tools tools09
        [⟨"c1", "divide", ((1 : ℚ), (0 : ℚ))⟩] =
        [Msg.tool "Error executing tool divide: float division by zero"
          "c1"] ∧
      "Error executing tool divide: float division by zero" ≠
        "Error: float division by zero" := by
  exact ⟨rfl, by decide⟩

/-- C3 (amended): when a matched callable raises, no dispatcher propagates
the exception; `09_simple_agents.py` and `11_rag_agent.py` append a tool
message whose content is `"Error: <message>"`, while
`13_ai_service_deploy.py` appends `"Error executing tool <name>: <message>"`;
all three contain the exception text and the run continues. -/
theorem error_content_by_dispatcher (tools : List (Tool α)) (tc : ToolCall α)
    (t : Tool α) (e : String) (hf : find_tool tools tc.name = some t)
    (he : t.invoke tc.args = .error e) :
    SimpleAgents.call_tools tools [tc] =
        [Msg.tool ("Error: " ++ e) tc.id] ∧
      RagAgent.call_tools tools [tc] = [Msg.tool ("Error: " ++ e) tc.id] ∧
      DeployAgent.call_tools tools [tc] =
        [Msg.tool ("Error executing tool " ++ tc.name ++ ": " ++ e)
          tc.id] := by
  refine ⟨?_, ?_, ?_⟩ <;>
    simp [SimpleAgents.call_tools, SimpleAgents.call_tools_go,
      RagAgent.call_tools, RagAgent.call_tools_go,
      DeployAgent.call_tools, DeployAgent.call_tools_go, hf, he]

/-- C3 witness: the amended statement at `divide(1, 0)`. -/
theorem error_content_by_dispatcher_witness :
    SimpleAgents.call_tools tools09
        [⟨"c1", "divide", ((1 : ℚ), (0 : ℚ))⟩] =
        [Msg.tool ("Error: " ++ "float division by zero") "c1"] ∧
      RagAgent.call_tools tools09
        [⟨"c1", "divide", ((1 : ℚ), (0 : ℚ))⟩] =
        [Msg.tool ("Error: " ++ "float division by zero") "c1"] ∧
      DeployAgent.call_tools tools09
        [⟨"c1", "divide", ((1 : ℚ), (0 : ℚ))⟩] =
        [Msg.tool
          ("Error executing tool " ++ "divide" ++ ": " ++
            "float division by zero") "c1"] :=
  error_content_by_dispatcher tools09 ⟨"c1", "divide", (1, 0)⟩ divide
    "float division by zero" rfl rfl

/-- C4 counterexample: in `09_simple_agents.py`, a successful 5000-character
result is appended in full — not truncated to the 2000-character bound, and
carrying no truncation marker. -/
theorem long_result_not_truncated :
    SimpleAgents.call_tools [big_tool] [⟨"b1", "search", ()⟩] =
        [Msg.tool big_result "b1"] ∧
      big_result.length = 5000 := by
  exact ⟨rfl, big_result_length⟩

/-- C4 (amended): a successful result longer than the 2000-character bound
is truncated to exactly 2000 characters with no marker by `11_rag_agent.py`,
truncated to 2000 characters plus the `"... [truncated]"` marker by
`13_ai_service_deploy.py`, and not truncated at all by
`09_simple_agents.py`. -/
theorem truncation_by_dispatcher (tools : List (Tool α)) (tc : ToolCall α)
    (t : Tool α) (r : String) (hf : find_tool tools tc.name = some t)
    (hr : t.invoke tc.args = .ok r) (hlen : 2000 < r.length) :
    RagAgent.call_tools tools [tc] = [Msg.tool (r.take 2000) tc.id] ∧
      (r.take 2000).length = 2000 ∧
      DeployAgent.call_tools tools [tc] =
        [Msg.tool (r.take 2000 ++ "... [truncated]") tc.id] ∧
      SimpleAgents.call_tools tools [tc] = [Msg.tool r tc.id] := by
  refine ⟨?_, ?_, ?_, ?_⟩
  · simp [RagAgent.call_tools, RagAgent.call_tools_go, hf, hr, hlen]
  · rw [← String.length_data, String.data_take, List.length_take,
      String.length_data]
    exact Nat.min_eq_left (Nat.le_of_lt hlen)
  · simp [DeployAgent.call_tools, DeployAgent.call_tools_go, hf, hr, hlen]
  · simp [SimpleAgents.call_tools, SimpleAgents.call_tools_go, hf, hr]

/-- C4 witness: the amended statement at the concrete 5000-character
result. -/
theorem truncation_by_dispatcher_witness :
    RagAgent.call_tools [big_tool] [⟨"b1", "search", ()⟩] =
        [Msg.tool (big_result.take 2000) "b1"] ∧
      (big_result.take 2000).length = 2000 ∧
      DeployAgent.call_tools [big_tool] [⟨"b1", "search", ()⟩] =
        [Msg.tool (big_result.take 2000 ++ "... [truncated]") "b1"] ∧
      SimpleAgents.call_tools [big_tool] [⟨"b1", "search", ()⟩] =
        [Msg.tool big_result "b1"] :=
  truncation_by_dispatcher [big_tool] ⟨"b1", "search", ()⟩ big_tool
    big_result rfl rfl (by rw [big_result_length]; omega)

/-- C10: a `divide` request with divisor 0 does not crash the run: the
callable raises `ZeroDivisionError` (text "float division by zero"), and
the `09_simple_agents.py` dispatcher appends a tool message whose content
begins with "Error:" and contains the exception text, so the conversation
continues. -/
theorem divide_by_zero_yields_error_message (a : ℚ) (s : String) :
    divide.invoke (a, 0) = .error "float division by zero" ∧
      SimpleAgents.call_tools tools09 [⟨s, "divide", (a, 0)⟩] =
        [Msg.tool ("Error: " ++ "float division by zero") s] ∧
      (∃ rest, "Error: " ++ "float division by zero" =
        "Error:" ++ rest) := by
  have hfind : find_tool tools09 "divide" = some divide := rfl
  have hinv : divide.invoke (a, 0) = .error "float division by zero" := by
    simp [divide]
  refine ⟨hinv, ?_, ⟨" float division by zero", rfl⟩⟩
  simp [SimpleAgents.call_tools, SimpleAgents.call_tools_go, hfind, hinv]

/-! ## Claim theorems: the Loop Controller -/

/-- C1: if the model caller always returns tool-call requests and never a
final answer, every run of the loop terminates (`run_agent` is a total
function) once the iteration counter exceeds the configured ceiling, ending
in the done state with the diagnostic final message
`recursion_limit_diagnostic` as the conversation's last message. -/
theorem run_agent_hits_ceiling (model : ModelCaller α) (tools : List (Tool α))
    (recursion_limit : Nat) (messages : List (Msg α))
    (h : ∀ ms, (model ms).tool_calls ≠ []) :
    (run_agent model tools recursion_limit messages).getLast? =
      some (recursion_limit_diagnostic α) := by
  induction recursion_limit generalizing messages with
  | zero => rw [run_agent, List.getLast?_concat]
  | succ n ih =>
    rw [run_agent]
    have hsc :
        should_continue (messages ++ call_model model messages) =
          NodeTag.tools := by
      rw [call_model, should_continue_concat]
      cases hc : (model messages).tool_calls with
      | nil => exact absurd hc (h messages)
      | cons tc rest => rfl
    rw [hsc]
    exact ih _

/-- C1 witness: the loop under a model that always requests a tool call
stops at the ceiling with the diagnostic message. -/
theorem run_agent_hits_ceiling_witness :
    (run_agent always_tool_model ([] : List (Tool String)) 3
        [Msg.human "hi"]).getLast? =
      some (recursion_limit_diagnostic String) :=
  run_agent_hits_ceiling always_tool_model [] 3 [Msg.human "hi"]
    (fun ms => by simp [always_tool_model])

/-- C5: when the model caller returns an assistant message with no
tool-call requests, the loop appends it and transitions to the terminal
done state in that same iteration: the run result is the conversation plus
that single message, whose last element equals the model's final message. -/
theorem final_answer_ends_loop (model : ModelCaller α) (tools : List (Tool α))
    (n : Nat) (messages : List (Msg α))
    (h : (model messages).tool_calls = []) :
    run_agent model tools (n + 1) messages =
        messages ++
          [Msg.ai (model messages).content (model messages).tool_calls] ∧
      (run_agent model tools (n + 1) messages).getLast? =
        some (Msg.ai (model messages).content
          (model messages).tool_calls) := by
  have hsc :
      should_continue (messages ++ call_model model messages) =
        NodeTag.done := by
    rw [call_model, should_continue_concat, h]
    rfl
  have h1 : run_agent model tools (n + 1) messages =
      messages ++ call_model model messages := by
    rw [run_agent, hsc]
  exact ⟨h1, by rw [h1, call_model, List.getLast?_concat]⟩

/-- C5 witness: a model that immediately answers makes the loop stop after
one iteration with that answer last. -/
theorem final_answer_ends_loop_witness :
    run_agent final_answer_model ([] : List (Tool String)) (4 + 1)
        [Msg.human "q"] =
        [Msg.human "q"] ++
          [Msg.ai (final_answer_model [Msg.human "q"]).content
            (final_answer_model [Msg.human "q"]).tool_calls] ∧
      (run_agent final_answer_model ([] : List (Tool String)) (4 + 1)
          [Msg.human "q"]).getLast? =
        some (Msg.ai (final_answer_model [Msg.human "q"]).content
          (final_answer_model [Msg.human "q"]).tool_calls) :=
  final_answer_ends_loop final_answer_model [] 4 [Msg.human "q"] rfl

/-- C7: invariant over every reachable conversation state of the
`09_simple_agents.py` loop: each tool-result message's `tool_call_id`
equals the id of a tool invocation request emitted by an earlier assistant
message in the same conversation. -/
theorem reachable_tool_ids_justified {model : ModelCaller α}
    {tools : List (Tool α)} {messages : List (Msg α)}
    (h : Reachable model tools messages) :
    tool_ids_justified messages := by
  induction h with
  | init q =>
    intro i hi c s hget
    have h0 : i = 0 := by simpa using hi
    subst h0
    simp at hget
  | agent_step hr ih =>
    refine justified_append_of _ _ ih ?_
    intro m hm c s hget
    rw [call_model] at hm
    simp at hm
    rw [hm] at hget
    simp at hget
  | tools_step hr hsc ih =>
    refine justified_append_of _ _ ih ?_
    intro m hm c s hget
    obtain ⟨ms, c2, tcs, hshape, hne, hlast⟩ := should_continue_eq_tools hsc
    rw [hlast] at hm
    obtain ⟨tc, htc, c3, rfl⟩ := SimpleAgents.mem_call_tools hm
    injection hget with hc hs
    refine ⟨ms.length, ?_, c2, tcs, ?_, tc, htc, hs⟩
    · rw [hshape]
      simp
    · subst hshape
      simp

/-- C7 witness: the invariant at the concrete state reached after one agent
superstep requesting `add(2, 3)` and its tools superstep. -/
theorem reachable_tool_ids_justified_witness :
    tool_ids_justified
      (([Msg.human "What is 2 + 3?"] ++
          call_model add_request_model [Msg.human "What is 2 + 3?"]) ++
        SimpleAgents.call_tools tools09
          (last_tool_calls
            ([Msg.human "What is 2 + 3?"] ++
              call_model add_request_model [Msg.human "What is 2 + 3?"]))) :=
  reachable_tool_ids_justified
    (Reachable.tools_step
      (Reachable.agent_step (Reachable.init "What is 2 + 3?")) (by rfl))

/-! ## Claim theorems: script-level behavior -/

/-- C8 counterexample: `01_setup_environment.py` with failed SDK
initialization (as when a required variable such as `WATSONX_API_KEY` is
absent) prints a diagnostic but runs to completion with exit status 0 — it
does not exit with a non-zero status. -/
theorem setup_environment_exit_zero :
    (setup_environment_run
        (.error "missing WATSONX_API_KEY")).exit_code = 0 ∧
      (setup_environment_run
          (.error "missing WATSONX_API_KEY")).printed_diagnostic = true :=
  ⟨rfl, rfl⟩

/-- C8 (amended): absence of a required environment variable does not
uniformly cause a non-zero exit. `chat_invoke.py` prints a diagnostic and
exits 1 when its SDK calls raise; `01_setup_environment.py` prints a
warning and continues to a normal exit 0; the setup cells of
`09_simple_agents.py` read the variables without validation (absent values
become `None`, only the URL has a default) and continue. No script
retries. -/
theorem env_failure_outcomes (e : String) :
    chat_invoke_run (.error e) =
        { printed_diagnostic := true, exit_code := 1 } ∧
      setup_environment_run (.error e) =
        { printed_diagnostic := true, exit_code := 0 } ∧
      read_agent_env (fun _ => none) =
        { api_key := none, project_id := none,
          url := "https://us-south.ml.cloud.ibm.com", model_name := none } :=
  ⟨rfl, rfl, rfl⟩

/-- C9: each successful chat invocation writes exactly one text file (the
single open-and-write sequence of `chat_invoke.py` lines 75–77) under the
working directory; its content is exactly
`"Prompt: <p>\n\nResponse:\n<r>\n"` and its name contains the timestamp
and the sanitized prompt fragment. -/
theorem chat_invoke_output_file_spec (ts p r : String) :
    ChatInvoke.output_file_content p r =
        "Prompt: " ++ p ++ "\n\nResponse:\n" ++ r ++ "\n" ∧
      (∃ u v, ChatInvoke.output_file_name ts p = u ++ ts ++ v) ∧
      ∃ u v,
        ChatInvoke.output_file_name ts p =
          u ++ ChatInvoke.prompt_safe p ++ v := by
  refine ⟨?_, ⟨"response_", "_" ++ ChatInvoke.prompt_safe p ++ ".txt", ?_⟩,
    ⟨"response_" ++ ts ++ "_", ".txt", rfl⟩⟩
  · show (("" ++ ("Prompt: " ++ p ++ "\n\n")) ++
        ("Response:\n" ++ r ++ "\n")) = _
    have h0 : ("" : String) ++ ("Prompt: " ++ p ++ "\n\n") =
        "Prompt: " ++ p ++ "\n\n" := rfl
    have hx : ("\n\n" : String) ++ "Response:\n" = "\n\nResponse:\n" := rfl
    rw [h0, ← hx]
    simp only [String.append_assoc]
  · show "response_" ++ ts ++ "_" ++ ChatInvoke.prompt_safe p ++ ".txt" = _
    simp only [String.append_assoc]

end WatsonxDemo
